import Mathlib

/-!
Verification development for the ts-lsp-mcp protocol-bridging client
(`TypeScriptLspClient`, `toAbsolutePath` and friends).  The TypeScript source
is shallowly embedded: promise-based methods become pure functions with the
settled outcomes of the awaited promises passed in as explicit parameters,
the mutable fields of the client object become an explicit `Client` record
threaded through each operation, and thrown exceptions become `Except String`.
JavaScript runs each synchronous stretch of a method without interleaving, so
a sequence of calls on the event loop is modelled as a fold over a call list.
-/

namespace TsLspMcp

/-- An LSP position (zero-based line / character), as in
`vscode-languageserver-protocol`.  The client moves these around opaquely. -/
structure Position where
  line : Nat
  character : Nat
deriving DecidableEq

/-- An LSP range.  `start` and `«end»` as in the protocol type. -/
structure Range where
  start : Position
  «end» : Position
deriving DecidableEq

/-- An LSP `Location`: a document uri plus a range. -/
structure Location where
  uri : String
  range : Range
deriving DecidableEq

/-- An LSP `LocationLink`: a target uri, its full range, and an optional
tighter selection range (the optional origin range is never read by the
client and is omitted). -/
structure LocationLink where
  targetUri : String
  targetRange : Range
  targetSelectionRange : Option Range
deriving DecidableEq

/-- A single diagnostic entry.  Only the fields the client stores are kept;
the client never inspects them. -/
structure Diagnostic where
  severity : Option Nat
  range : Range
  message : String
deriving DecidableEq

/-- An LSP `publishDiagnostics` notification payload: the document uri and
the full replacement list of diagnostics. -/
structure PublishDiagnosticsParams where
  uri : String
  diagnostics : List Diagnostic
deriving DecidableEq

/-- The result of the `initialize` request.  The client treats it opaquely
(it only logs `capabilities` and hands the value back to callers), so its
payload is modelled as a single opaque field. -/
structure InitResult where
  capabilities : String
deriving DecidableEq

/-- An LSP hover result; the client returns it unchanged (`response ?? null`),
so its contents are opaque here. -/
structure Hover where
  contents : String
deriving DecidableEq

/-- One entry of a document-symbols result (either shape); returned unchanged
by the client, so opaque here. -/
structure SymbolEntry where
  name : String
deriving DecidableEq

/-- `DocumentState` from src/unnamed/part_000 lines 52–57: the client's cached
mirror of one open document. -/
structure DocumentState where
  uri : String
  path : String
  version : Nat
  text : String
deriving DecidableEq

/-- A document-synchronization notification sent to the server: either a
`textDocument/didOpen` (carrying the language id, version and full text) or a
`textDocument/didChange` (carrying version and full replacement text). -/
inductive DocNotification where
  | didOpen (uri languageId : String) (version : Nat) (text : String)
  | didChange (uri : String) (version : Nat) (text : String)
deriving DecidableEq

/-- Lookup in a string-keyed map (the embedding of `Map.get`). -/
def mapGet {β : Type} : List (String × β) → String → Option β
  | [], _ => none
  | (k, v) :: rest, key => if k = key then some v else mapGet rest key

/-- Insert-or-replace in a string-keyed map (the embedding of `Map.set`). -/
def mapSet {β : Type} : List (String × β) → String → β → List (String × β)
  | [], key, v => [(key, v)]
  | (k, w) :: rest, key, v =>
      if k = key then (key, v) :: rest else (k, w) :: mapSet rest key v

/-- The map from uri to cached `DocumentState` (`openDocuments`, line 73). -/
abbrev DocMap := List (String × DocumentState)

/-- The map from uri to latest diagnostics report (`diagnostics`, line 74). -/
abbrev DiagMap := List (String × PublishDiagnosticsParams)

/-- The message of the error thrown by `assertConnection` (line 255). -/
def connectionErrorMessage : String := "LSP connection has not been initialized"

/-- Models `TypeScriptLspClient.assertConnection` (lines 253–259): throws when
no connection is present. -/
def assertConnection (connection : Bool) : Except String Unit :=
  if connection then Except.ok () else Except.error connectionErrorMessage

/-- Models `TypeScriptLspClient.resolveLanguageId` (lines 316–343). -/
def resolveLanguageId (absolutePath : String) : String :=
  if absolutePath.endsWith ".tsx" then "typescriptreact"
  else if absolutePath.endsWith ".jsx" then "javascriptreact"
  else if absolutePath.endsWith ".js" || absolutePath.endsWith ".cjs"
      || absolutePath.endsWith ".mjs" then "javascript"
  else if absolutePath.endsWith ".cts" || absolutePath.endsWith ".mts"
      || absolutePath.endsWith ".d.cts" || absolutePath.endsWith ".d.mts" then
    "typescript"
  else "typescript"

/-- Models `toFileUri` (part_001 lines 315–316), for paths without characters
needing percent-encoding: `pathToFileURL(p).toString()` is the `file://`
scheme prefix followed by the absolute path. -/
def toFileUri (absolutePath : String) : String := "file://" ++ absolutePath

/-- Models `TypeScriptLspClient.ensureDocument` (lines 261–314) from the point
after path resolution and the on-disk read: `absolutePath` is the resolved
path and `text` the current on-disk content.  Returns the document
notifications sent (in order), the resulting `DocumentState`, and the updated
`openDocuments` map.  `assertConnection` is consulted exactly where the source
calls it, i.e. only on the paths that send a notification. -/
def ensureDocument (connection : Bool) (docs : DocMap) (absolutePath text : String) :
    Except String (List DocNotification × DocumentState × DocMap) :=
  let uri := toFileUri absolutePath
  match mapGet docs uri with
  | none => do
      let _ ← assertConnection connection
      let state : DocumentState :=
        { uri := uri, path := absolutePath, version := 1, text := text }
      Except.ok ([DocNotification.didOpen uri (resolveLanguageId absolutePath) 1 text],
        state, mapSet docs uri state)
  | some existing =>
      if existing.text ≠ text then do
        let _ ← assertConnection connection
        let nextVersion := existing.version + 1
        let state : DocumentState := { existing with version := nextVersion, text := text }
        Except.ok ([DocNotification.didChange uri nextVersion text],
          state, mapSet docs uri state)
      else
        Except.ok ([], existing, docs)

/-- Default initialization timeout (line 59). -/
def DEFAULT_INITIALIZATION_TIMEOUT_MS : Nat := 10000

/-- Default diagnostics timeout (line 60). -/
def DEFAULT_DIAGNOSTICS_TIMEOUT_MS : Nat := 1500

/-- Models the constructor's `options.diagnosticsTimeoutMs ?? DEFAULT_DIAGNOSTICS_TIMEOUT_MS`
(lines 82–83). -/
def resolveDiagnosticsTimeout : Option Nat → Nat
  | some t => t
  | none => DEFAULT_DIAGNOSTICS_TIMEOUT_MS

/-- What happens on the push channel for one uri during a diagnostics wait:
either the next `publishDiagnostics` notification for that uri arrives within
the diagnostics timeout, or the timeout elapses first. -/
inductive DiagArrival where
  | arrives (params : PublishDiagnosticsParams)
  | timeout
deriving DecidableEq

/-- Models `TypeScriptLspClient.handleDiagnostics` (lines 345–348), the cache
write: the latest report for a uri entirely replaces the previous one. -/
def handleDiagnostics (cache : DiagMap) (params : PublishDiagnosticsParams) : DiagMap :=
  mapSet cache params.uri params

/-- Models `TypeScriptLspClient.getDiagnostics` lines 425–446 (after
initialization and document sync): return the cached report if present,
otherwise wait for the race between the next notification for the uri and the
timeout.  The second component records whether the operation had to wait. -/
def awaitDiagnostics (cache : DiagMap) (uri : String) (arrival : DiagArrival) :
    PublishDiagnosticsParams × Bool :=
  match mapGet cache uri with
  | some cached => (cached, false)
  | none =>
      match arrival with
      | DiagArrival.arrives params => (params, true)
      | DiagArrival.timeout => ({ uri := uri, diagnostics := [] }, true)

/-- One entry of an array-shaped definition response: the server may mix
plain locations and location links; `isLocationLink` (lines 495–502) is the
runtime tag check distinguishing them. -/
inductive LocationEntry where
  | loc (l : Location)
  | link (l : LocationLink)
deriving DecidableEq

/-- The shape of a `textDocument/definition` response
(`null | undefined | Location | Location[] | LocationLink[]`, lines 469–475);
`null` covers both falsy answers. -/
inductive DefinitionResponse where
  | null
  | single (l : Location)
  | list (entries : List LocationEntry)
deriving DecidableEq

/-- The per-entry mapping applied inside `normalizeLocations` (lines 482–489):
a location link becomes a location at the link's target uri, preferring the
selection range over the full target range. -/
def normalizeEntry : LocationEntry → Location
  | LocationEntry.loc l => l
  | LocationEntry.link k =>
      { uri := k.targetUri, range := k.targetSelectionRange.getD k.targetRange }

/-- Models `TypeScriptLspClient.normalizeLocations` (lines 469–493). -/
def normalizeLocations : DefinitionResponse → List Location
  | DefinitionResponse.null => []
  | DefinitionResponse.single l => [l]
  | DefinitionResponse.list entries => entries.map normalizeEntry

instance {ε α : Type} [DecidableEq ε] [DecidableEq α] : DecidableEq (Except ε α) :=
  fun a b =>
    match a, b with
    | Except.ok x, Except.ok y =>
        if h : x = y then isTrue (by rw [h])
        else isFalse (fun he => h (Except.ok.inj he))
    | Except.error e, Except.error f =>
        if h : e = f then isTrue (by rw [h])
        else isFalse (fun he => h (Except.error.inj he))
    | Except.ok _, Except.error _ => isFalse (fun he => Except.noConfusion he)
    | Except.error _, Except.ok _ => isFalse (fun he => Except.noConfusion he)

/-- The mutable fields of one `TypeScriptLspClient` instance (lines 68–75).
`connection` and `child` record whether those nullable fields are set;
`initPromise` is the memoized `initializePromise` as its settled outcome
(`none` while the field is still null). -/
structure Client where
  connection : Bool
  child : Bool
  initPromise : Option (Except String InitResult)
  shuttingDown : Bool
  openDocuments : DocMap
  diagnostics : DiagMap
deriving DecidableEq

/-- A freshly constructed client: every nullable field null, both maps empty
(lines 68–75 field initializers). -/
def freshClient : Client :=
  { connection := false, child := false, initPromise := none,
    shuttingDown := false, openDocuments := [], diagnostics := [] }

/-- Models `TypeScriptLspClient.initialize` (lines 86–93) together with the
field assignments of `start` (`this.child` line 131, `this.connection`
line 137): if the memoized promise exists it is returned as-is, otherwise
`start()` runs, spawning the subprocess and wiring the transport, and the
promise is memoized.  `startOutcome` is the settled outcome of that one
`start()` promise.  The null-check and the assignment are separated by no
await in the source, so no interleaving can run between them; the third
component records whether this call spawned the subprocess. -/
def initOnce (c : Client) (startOutcome : Except String InitResult) :
    Except String InitResult × Client × Bool :=
  match c.initPromise with
  | some memoized => (memoized, c, false)
  | none =>
      (startOutcome,
       { c with initPromise := some startOutcome, child := true, connection := true },
       true)

/-- A sequence of `n` callers invoking `initialize` one after another on the
event loop: the outcomes each caller observes, the final client state, and
how many of the calls spawned the subprocess. -/
def initCalls (c : Client) (startOutcome : Except String InitResult) :
    Nat → List (Except String InitResult) × Client × Nat
  | 0 => ([], c, 0)
  | n + 1 =>
      let (observed, c1, spawned) := initOnce c startOutcome
      let (rest, c2, count) := initCalls c1 startOutcome n
      (observed :: rest, c2, (if spawned then 1 else 0) + count)

/-- Which of the three racing promises of `start` (lines 193–197) settles
first: the initialize response, the initialization timeout, or the
subprocess spawn error. -/
inductive RaceWinner where
  | success (r : InitResult)
  | timeoutExpiry
  | spawnFailure (message : String)
deriving DecidableEq

/-- The settled outcome of
`Promise.race([initializeResultPromise, timeoutPromise, spawnErrorPromise])`:
the race adopts whichever promise settles first, exactly once. -/
def raceOutcome : RaceWinner → Except String InitResult
  | RaceWinner.success r => Except.ok r
  | RaceWinner.timeoutExpiry =>
      Except.error "Timed out waiting for LSP initialize response"
  | RaceWinner.spawnFailure message => Except.error message

/-- Models lines 193–201 of `start`: `await Promise.race(...)` followed by
the `clearTimeout(timeoutHandle)` guard.  When the race rejects, the `await`
throws, so control never reaches the statements after it.  Returns the
propagated outcome and whether `clearTimeout` executed. -/
def startRaceStep (winner : RaceWinner) : Except String InitResult × Bool :=
  match raceOutcome winner with
  | Except.ok r => (Except.ok r, true)
  | Except.error e => (Except.error e, false)

/-- The observable state of one diagnostics waiter created by `getDiagnostics`
(lines 430–445): whether its handler is still registered on
`diagnosticsEvents`, whether its timeout timer is still pending, what (if
anything) its promise resolved with, and how many times the handler ran. -/
structure WaiterState where
  handlerRegistered : Bool
  timerPending : Bool
  resolvedWith : Option PublishDiagnosticsParams
  handlerInvocations : Nat
deriving DecidableEq

/-- A freshly created waiter: handler registered via `events.once`, timer
armed, promise pending. -/
def newWaiter : WaiterState := ⟨true, true, none, 0⟩

/-- Promise resolution: only the first `resolve` settles the promise. -/
def resolveOnce (w : WaiterState) (params : PublishDiagnosticsParams) : WaiterState :=
  match w.resolvedWith with
  | some _ => w
  | none => { w with resolvedWith := some params }

/-- The empty report `getDiagnostics` resolves with on timeout
(lines 433–436). -/
def emptyReport (uri : String) : PublishDiagnosticsParams :=
  { uri := uri, diagnostics := [] }

/-- The timeout callback (lines 431–437): it first deregisters the handler
(`diagnosticsEvents.off(uri, handler)`), then resolves the promise with the
empty report for the uri.  It can only run while the timer is pending. -/
def timerFires (uri : String) (w : WaiterState) : WaiterState :=
  if w.timerPending then
    resolveOnce { w with timerPending := false, handlerRegistered := false }
      (emptyReport uri)
  else w

/-- A `publishDiagnostics` notification for the waiter's uri reaching the
emitter (lines 439–445 plus the `events.once` registration, line 444): the
handler runs only if still registered, clears the pending timer, resolves
the promise with the arriving report, and — `once` semantics — is removed
upon invocation.  A deregistered handler is not invoked at all. -/
def notificationArrives (params : PublishDiagnosticsParams) (w : WaiterState) : WaiterState :=
  if w.handlerRegistered then
    resolveOnce
      { w with handlerRegistered := false, timerPending := false,
               handlerInvocations := w.handlerInvocations + 1 } params
  else w

/-- The externally observable steps of `shutdown` (lines 448–467), in program
order. -/
inductive ShutdownEffect where
  | sendShutdownRequest
  | sendExitNotification
  | logShutdownWarning
  | disposeConnection
  | killChild
deriving DecidableEq

/-- How the `try` block of `shutdown` (lines 455–460) fares: both sends
deliver, the shutdown request throws, or the exit notification throws. -/
inductive SendOutcome where
  | ok
  | requestFails
  | exitFails
deriving DecidableEq

/-- Models `TypeScriptLspClient.shutdown` (lines 448–467): a missing
connection or subprocess returns immediately with no effects; otherwise the
shutdown request and exit notification are attempted, a failure of either is
caught and logged (never rethrown), and the transport is disposed and the
subprocess killed unconditionally, clearing both fields. -/
def shutdown (c : Client) (send : SendOutcome) : Client × List ShutdownEffect :=
  if !c.connection || !c.child then (c, [])
  else
    let tryEffects :=
      match send with
      | SendOutcome.ok =>
          [ShutdownEffect.sendShutdownRequest, ShutdownEffect.sendExitNotification]
      | SendOutcome.requestFails =>
          [ShutdownEffect.sendShutdownRequest, ShutdownEffect.logShutdownWarning]
      | SendOutcome.exitFails =>
          [ShutdownEffect.sendShutdownRequest, ShutdownEffect.sendExitNotification,
           ShutdownEffect.logShutdownWarning]
    ({ c with shuttingDown := true, connection := false, child := false },
     tryEffects ++ [ShutdownEffect.disposeConnection, ShutdownEffect.killChild])

/-- Models `TypeScriptLspClient.getHover` (lines 350–363): await the memoized
initialization, synchronize the document, then send the hover request over
the asserted connection.  `response` is the server's answer to that request
(`response ?? null` is the identity on `Option`). -/
def getHover (c : Client) (startOutcome : Except String InitResult)
    (absolutePath diskText : String) (response : Option Hover) :
    Except String (Option Hover × Client) := do
  let (initRes, c1, _) := initOnce c startOutcome
  let _ ← initRes
  let (_, _, docs2) ← ensureDocument c1.connection c1.openDocuments absolutePath diskText
  let c2 := { c1 with openDocuments := docs2 }
  let _ ← assertConnection c2.connection
  pure (response, c2)

/-- Models `TypeScriptLspClient.getDefinition` (lines 365–380): like hover,
but the server response is normalized through `normalizeLocations`. -/
def getDefinition (c : Client) (startOutcome : Except String InitResult)
    (absolutePath diskText : String) (response : DefinitionResponse) :
    Except String (List Location × Client) := do
  let (initRes, c1, _) := initOnce c startOutcome
  let _ ← initRes
  let (_, _, docs2) ← ensureDocument c1.connection c1.openDocuments absolutePath diskText
  let c2 := { c1 with openDocuments := docs2 }
  let _ ← assertConnection c2.connection
  pure (normalizeLocations response, c2)

/-- Models `TypeScriptLspClient.findReferences` (lines 382–401):
`result ?? []` on the server's answer. -/
def findReferences (c : Client) (startOutcome : Except String InitResult)
    (absolutePath diskText : String) (response : Option (List Location)) :
    Except String (List Location × Client) := do
  let (initRes, c1, _) := initOnce c startOutcome
  let _ ← initRes
  let (_, _, docs2) ← ensureDocument c1.connection c1.openDocuments absolutePath diskText
  let c2 := { c1 with openDocuments := docs2 }
  let _ ← assertConnection c2.connection
  pure (response.getD [], c2)

/-- Models `TypeScriptLspClient.documentSymbols` (lines 403–417):
`result ?? []` on the server's answer. -/
def documentSymbols (c : Client) (startOutcome : Except String InitResult)
    (absolutePath diskText : String) (response : Option (List SymbolEntry)) :
    Except String (List SymbolEntry × Client) := do
  let (initRes, c1, _) := initOnce c startOutcome
  let _ ← initRes
  let (_, _, docs2) ← ensureDocument c1.connection c1.openDocuments absolutePath diskText
  let c2 := { c1 with openDocuments := docs2 }
  let _ ← assertConnection c2.connection
  pure (response.getD [], c2)

/-- Models `TypeScriptLspClient.getDiagnostics` (lines 419–446) end to end:
await the memoized initialization, synchronize the document, then consult the
cache or wait out the arrival/timeout race.  No connection assertion occurs
after the document sync — the cached/waiting path never touches the
connection. -/
def getDiagnostics (c : Client) (startOutcome : Except String InitResult)
    (absolutePath diskText : String) (arrival : DiagArrival) :
    Except String (PublishDiagnosticsParams × Client) := do
  let (initRes, c1, _) := initOnce c startOutcome
  let _ ← initRes
  let (_, _, docs2) ← ensureDocument c1.connection c1.openDocuments absolutePath diskText
  let c2 := { c1 with openDocuments := docs2 }
  pure ((awaitDiagnostics c2.diagnostics (toFileUri absolutePath) arrival).1, c2)

/-- A caller-supplied POSIX path, split at separators: `absolute` records a
leading separator; `segments` may contain `""`, `"."` and `".."` exactly as
typed. -/
structure RawPath where
  absolute : Bool
  segments : List String
deriving DecidableEq

/-- One step of node's `path.resolve` normalization on an absolute path:
empty and `"."` segments are dropped, `".."` pops the last component (a no-op
at the root), anything else is appended. -/
def resolveStep (acc : List String) (segment : String) : List String :=
  if segment = "" || segment = "." then acc
  else if segment = ".." then acc.dropLast
  else acc ++ [segment]

/-- Node's `path.resolve` on an absolute path, as canonical components: no
component is empty, `"."` or `".."`. -/
def resolveSegments (segments : List String) : List String :=
  segments.foldl resolveStep []

/-- Node's `path.resolve(normalizedRoot, inputPath)` /
`path.resolve(inputPath)` pair from `toAbsolutePath` (part_001 lines
300–302): an absolute input resolves alone, a relative one against the
normalized root. -/
def resolveCandidate (normalizedRoot : List String) (inputPath : RawPath) : List String :=
  if inputPath.absolute then resolveSegments inputPath.segments
  else resolveSegments (normalizedRoot ++ inputPath.segments)

/-- Node's `path.relative(fromPath, toPath)` on canonical absolute component
lists: strip the common prefix, one `".."` per remaining component of
`fromPath`, then the remaining components of `toPath`. -/
def pathRelative : List String → List String → List String
  | [], toRest => toRest
  | _ :: fromRest, [] => List.replicate (fromRest.length + 1) ".."
  | f :: fromRest, t :: toRest =>
      if f = t then pathRelative fromRest toRest
      else List.replicate (fromRest.length + 1) ".." ++ (t :: toRest)

/-- Character-list prefix test. -/
def charsPrefix : List Char → List Char → Bool
  | [], _ => true
  | _ :: _, [] => false
  | a :: as, b :: bs => if a = b then charsPrefix as bs else false

/-- JavaScript's `String.prototype.startsWith`, by direct character
comparison (so that it evaluates by definitional unfolding). -/
def strStartsWith (s pre : String) : Bool := charsPrefix pre.data s.data

/-- The guard `relative.startsWith("..")` of `toAbsolutePath` (part_001 line
306) on the component form: components are nonempty and separator-free, so
the separator-joined string starts with `".."` exactly when its first
component does. -/
def relStartsWithParent : List String → Bool
  | [] => false
  | c :: _ => strStartsWith c ".."

/-- The guard `path.isAbsolute(relative)` of the same line: the joined string
begins with a separator exactly when its first component does (never the
case for `path.relative` output on POSIX). -/
def relIsAbsolute : List String → Bool
  | [] => false
  | c :: _ => strStartsWith c "/"

/-- Renders canonical absolute components as the path string used in the
error message. -/
def joinAbs (components : List String) : String :=
  "/" ++ String.intercalate "/" components

/-- Models `toAbsolutePath` (part_001 lines 298–313): resolve the workspace
root, resolve the candidate (absolute inputs alone, relative ones against the
root), and throw when `path.relative(root, candidate)` starts with `".."` or
is absolute; otherwise return the canonical candidate. -/
def toAbsolutePath (workspaceRoot : List String) (inputPath : RawPath) :
    Except String (List String) :=
  let normalizedRoot := resolveSegments workspaceRoot
  let candidate := resolveCandidate normalizedRoot inputPath
  let relative := pathRelative normalizedRoot candidate
  if relStartsWithParent relative || relIsAbsolute relative then
    Except.error ("Resolved path " ++ joinAbs candidate
      ++ " escapes workspace root " ++ joinAbs normalizedRoot)
  else
    Except.ok candidate

/-- The full entry of `ensureDocument` (part_000 lines 264–266): resolve the
caller-supplied path through `toAbsolutePath` first, then run the
synchronization logic on the resolved path.  A path-containment failure
therefore precedes every document notification. -/
def ensureDocumentFromInput (connection : Bool) (docs : DocMap)
    (workspaceRoot : List String) (inputPath : RawPath) (diskText : String) :
    Except String (List DocNotification × DocumentState × DocMap) := do
  let components ← toAbsolutePath workspaceRoot inputPath
  ensureDocument connection docs (joinAbs components) diskText

/-- A client that completed initialization successfully and has
`/workspace/a.ts` open with cached text `"x"` and no cached diagnostics. -/
def readyClientWithDoc : Client :=
  { connection := true, child := true,
    initPromise := some (Except.ok { capabilities := "caps" }),
    shuttingDown := false,
    openDocuments :=
      [(toFileUri "/workspace/a.ts",
        { uri := toFileUri "/workspace/a.ts", path := "/workspace/a.ts",
          version := 1, text := "x" })],
    diagnostics := [] }

/-- `readyClientWithDoc` after a completed `shutdown`. -/
def shutdownClient : Client := (shutdown readyClientWithDoc SendOutcome.ok).1

/-- The claim notion of path containment: the canonical root components are a
prefix of the canonical candidate components. -/
def withinRoot : List String → List String → Bool
  | [], _ => true
  | _ :: _, [] => false
  | f :: fs, t :: ts => if f = t then withinRoot fs ts else false

theorem mapGet_mapSet_self {β : Type} (m : List (String × β)) (key : String) (v : β) :
    mapGet (mapSet m key v) key = some v := by
  induction m with
  | nil => simp [mapGet, mapSet]
  | cons head rest ih =>
      obtain ⟨k, w⟩ := head
      by_cases h : k = key <;> simp [mapGet, mapSet, h, ih]

/-- C2: for a document path never previously synchronized, the first
operation touching it sends exactly one didOpen notification carrying
version 1 and the full on-disk content, and registers a document state with
that uri, version 1 and that content in the open-documents map. -/
theorem ensureDocument_first_open (docs : DocMap) (absolutePath text : String)
    (h : mapGet docs (toFileUri absolutePath) = none) :
    ensureDocument true docs absolutePath text =
      Except.ok
        ([DocNotification.didOpen (toFileUri absolutePath)
            (resolveLanguageId absolutePath) 1 text],
         { uri := toFileUri absolutePath, path := absolutePath, version := 1, text := text },
         mapSet docs (toFileUri absolutePath)
           { uri := toFileUri absolutePath, path := absolutePath, version := 1, text := text })
    ∧ mapGet
        (mapSet docs (toFileUri absolutePath)
          { uri := toFileUri absolutePath, path := absolutePath, version := 1, text := text })
        (toFileUri absolutePath) =
        some { uri := toFileUri absolutePath, path := absolutePath, version := 1, text := text } := by
  refine ⟨?_, mapGet_mapSet_self ..⟩
  simp only [ensureDocument, h]
  rfl

theorem ensureDocument_first_open_witness :
    mapGet ([] : DocMap) (toFileUri "/workspace/a.ts") = none
  ∧ ensureDocument true [] "/workspace/a.ts" "hello" =
      Except.ok
        ([DocNotification.didOpen (toFileUri "/workspace/a.ts")
            (resolveLanguageId "/workspace/a.ts") 1 "hello"],
         { uri := toFileUri "/workspace/a.ts", path := "/workspace/a.ts",
           version := 1, text := "hello" },
         mapSet [] (toFileUri "/workspace/a.ts")
           { uri := toFileUri "/workspace/a.ts", path := "/workspace/a.ts",
             version := 1, text := "hello" }) :=
  ⟨rfl, (ensureDocument_first_open [] "/workspace/a.ts" "hello" rfl).1⟩

/-- C3: for an already-open document, the operation sends exactly one
didChange notification with version = previous + 1 and the new full content
when the on-disk content differs from the cached content, updating the
cached state to match; it sends no document notification and leaves the
cached state untouched when the contents are equal. -/
theorem ensureDocument_already_open (docs : DocMap) (absolutePath text : String)
    (st : DocumentState) (h : mapGet docs (toFileUri absolutePath) = some st) :
    (st.text ≠ text →
      ensureDocument true docs absolutePath text =
        Except.ok
          ([DocNotification.didChange (toFileUri absolutePath) (st.version + 1) text],
           { st with version := st.version + 1, text := text },
           mapSet docs (toFileUri absolutePath) { st with version := st.version + 1, text := text })
      ∧ mapGet
          (mapSet docs (toFileUri absolutePath) { st with version := st.version + 1, text := text })
          (toFileUri absolutePath) = some { st with version := st.version + 1, text := text })
  ∧ (st.text = text →
      ensureDocument true docs absolutePath text = Except.ok ([], st, docs)) := by
  constructor
  · intro hne
    refine ⟨?_, mapGet_mapSet_self ..⟩
    simp only [ensureDocument, h, hne, ne_eq, not_false_eq_true, if_true]
    rfl
  · intro heq
    simp [ensureDocument, h, heq]

theorem ensureDocument_already_open_witness :
    ensureDocument true
        [(toFileUri "/workspace/a.ts",
          { uri := toFileUri "/workspace/a.ts", path := "/workspace/a.ts",
            version := 1, text := "x" })]
        "/workspace/a.ts" "y" =
      Except.ok
        ([DocNotification.didChange (toFileUri "/workspace/a.ts") 2 "y"],
         { uri := toFileUri "/workspace/a.ts", path := "/workspace/a.ts",
           version := 2, text := "y" },
         mapSet
           [(toFileUri "/workspace/a.ts",
             { uri := toFileUri "/workspace/a.ts", path := "/workspace/a.ts",
               version := 1, text := "x" })]
           (toFileUri "/workspace/a.ts")
           { uri := toFileUri "/workspace/a.ts", path := "/workspace/a.ts",
             version := 2, text := "y" })
  ∧ ensureDocument true
        [(toFileUri "/workspace/a.ts",
          { uri := toFileUri "/workspace/a.ts", path := "/workspace/a.ts",
            version := 1, text := "x" })]
        "/workspace/a.ts" "x" =
      Except.ok ([],
        { uri := toFileUri "/workspace/a.ts", path := "/workspace/a.ts",
          version := 1, text := "x" },
        [(toFileUri "/workspace/a.ts",
          { uri := toFileUri "/workspace/a.ts", path := "/workspace/a.ts",
            version := 1, text := "x" })]) :=
  ⟨((ensureDocument_already_open
        [(toFileUri "/workspace/a.ts",
          { uri := toFileUri "/workspace/a.ts", path := "/workspace/a.ts",
            version := 1, text := "x" })]
        "/workspace/a.ts" "y"
        { uri := toFileUri "/workspace/a.ts", path := "/workspace/a.ts",
          version := 1, text := "x" }
        (by decide)).1 (by decide)).1,
   (ensureDocument_already_open
        [(toFileUri "/workspace/a.ts",
          { uri := toFileUri "/workspace/a.ts", path := "/workspace/a.ts",
            version := 1, text := "x" })]
        "/workspace/a.ts" "x"
        { uri := toFileUri "/workspace/a.ts", path := "/workspace/a.ts",
          version := 1, text := "x" }
        (by decide)).2 rfl⟩

/-- C5: the definition operation always yields plain locations: a falsy
server answer gives the empty list, a single location gives the one-element
list, and list entries keep their positions, with each location link
normalized to its target uri and its selection range when present, else its
full target range. -/
theorem normalizeLocations_spec :
    normalizeLocations DefinitionResponse.null = []
  ∧ (∀ l, normalizeLocations (DefinitionResponse.single l) = [l])
  ∧ (∀ entries, (normalizeLocations (DefinitionResponse.list entries)).length = entries.length)
  ∧ (∀ entries (i : Nat) l, entries[i]? = some (LocationEntry.loc l) →
      (normalizeLocations (DefinitionResponse.list entries))[i]? = some l)
  ∧ (∀ entries (i : Nat) k r, entries[i]? = some (LocationEntry.link k) →
      k.targetSelectionRange = some r →
      (normalizeLocations (DefinitionResponse.list entries))[i]? =
        some { uri := k.targetUri, range := r })
  ∧ (∀ entries (i : Nat) k, entries[i]? = some (LocationEntry.link k) →
      k.targetSelectionRange = none →
      (normalizeLocations (DefinitionResponse.list entries))[i]? =
        some { uri := k.targetUri, range := k.targetRange }) := by
  refine ⟨rfl, fun l => rfl, fun entries => by simp [normalizeLocations], ?_, ?_, ?_⟩
  · intro entries i l h
    simp [normalizeLocations, List.getElem?_map, h, normalizeEntry]
  · intro entries i k r h hsel
    simp [normalizeLocations, List.getElem?_map, h, normalizeEntry, hsel]
  · intro entries i k h hsel
    simp [normalizeLocations, List.getElem?_map, h, normalizeEntry, hsel]

theorem normalizeLocations_spec_witness :
    (normalizeLocations
        (DefinitionResponse.list
          [LocationEntry.loc
            { uri := "file:///workspace/a.ts", range := ⟨⟨0, 0⟩, ⟨0, 3⟩⟩ },
           LocationEntry.link
            { targetUri := "file:///workspace/b.ts", targetRange := ⟨⟨1, 0⟩, ⟨9, 0⟩⟩,
              targetSelectionRange := some ⟨⟨1, 9⟩, ⟨1, 12⟩⟩ },
           LocationEntry.link
            { targetUri := "file:///workspace/c.ts", targetRange := ⟨⟨2, 0⟩, ⟨5, 0⟩⟩,
              targetSelectionRange := none }]))[0]? =
      some { uri := "file:///workspace/a.ts", range := ⟨⟨0, 0⟩, ⟨0, 3⟩⟩ }
  ∧ (normalizeLocations
        (DefinitionResponse.list
          [LocationEntry.loc
            { uri := "file:///workspace/a.ts", range := ⟨⟨0, 0⟩, ⟨0, 3⟩⟩ },
           LocationEntry.link
            { targetUri := "file:///workspace/b.ts", targetRange := ⟨⟨1, 0⟩, ⟨9, 0⟩⟩,
              targetSelectionRange := some ⟨⟨1, 9⟩, ⟨1, 12⟩⟩ },
           LocationEntry.link
            { targetUri := "file:///workspace/c.ts", targetRange := ⟨⟨2, 0⟩, ⟨5, 0⟩⟩,
              targetSelectionRange := none }]))[1]? =
      some { uri := "file:///workspace/b.ts", range := ⟨⟨1, 9⟩, ⟨1, 12⟩⟩ }
  ∧ (normalizeLocations
        (DefinitionResponse.list
          [LocationEntry.loc
            { uri := "file:///workspace/a.ts", range := ⟨⟨0, 0⟩, ⟨0, 3⟩⟩ },
           LocationEntry.link
            { targetUri := "file:///workspace/b.ts", targetRange := ⟨⟨1, 0⟩, ⟨9, 0⟩⟩,
              targetSelectionRange := some ⟨⟨1, 9⟩, ⟨1, 12⟩⟩ },
           LocationEntry.link
            { targetUri := "file:///workspace/c.ts", targetRange := ⟨⟨2, 0⟩, ⟨5, 0⟩⟩,
              targetSelectionRange := none }]))[2]? =
      some { uri := "file:///workspace/c.ts", range := ⟨⟨2, 0⟩, ⟨5, 0⟩⟩ } :=
  ⟨normalizeLocations_spec.2.2.2.1 _ 0 _ rfl,
   normalizeLocations_spec.2.2.2.2.1 _ 1 _ _ rfl rfl,
   normalizeLocations_spec.2.2.2.2.2 _ 2 _ rfl rfl⟩

/-- C4: the diagnostics operation returns a cached report for the document's
uri immediately and without waiting when one exists; otherwise it waits for
the race between the next push notification for that uri and the diagnostics
timeout (1500 ms by default), resolving with the arriving report or, on
timeout, with an empty report for that uri rather than failing.  A report
just stored by the notification handler is served from the cache. -/
theorem getDiagnostics_cache_policy (cache : DiagMap) (uri : String) (arrival : DiagArrival) :
    (∀ cached, mapGet cache uri = some cached →
      awaitDiagnostics cache uri arrival = (cached, false))
  ∧ (mapGet cache uri = none →
      (∀ params, arrival = DiagArrival.arrives params →
        awaitDiagnostics cache uri arrival = (params, true))
      ∧ (arrival = DiagArrival.timeout →
        awaitDiagnostics cache uri arrival = (emptyReport uri, true)))
  ∧ (∀ params, awaitDiagnostics (handleDiagnostics cache params) params.uri arrival =
      (params, false))
  ∧ resolveDiagnosticsTimeout none = 1500 := by
  refine ⟨?_, ?_, ?_, rfl⟩
  · intro cached h
    simp [awaitDiagnostics, h]
  · intro h
    constructor
    · intro params harr
      subst harr
      simp [awaitDiagnostics, h]
    · intro harr
      subst harr
      simp [awaitDiagnostics, h, emptyReport]
  · intro params
    simp [awaitDiagnostics, handleDiagnostics, mapGet_mapSet_self]

theorem getDiagnostics_cache_policy_witness :
    awaitDiagnostics [("file:///workspace/a.ts", emptyReport "file:///workspace/a.ts")]
        "file:///workspace/a.ts" DiagArrival.timeout =
      (emptyReport "file:///workspace/a.ts", false)
  ∧ awaitDiagnostics [] "file:///workspace/a.ts" DiagArrival.timeout =
      (emptyReport "file:///workspace/a.ts", true)
  ∧ awaitDiagnostics []
        "file:///workspace/a.ts"
        (DiagArrival.arrives
          { uri := "file:///workspace/a.ts", diagnostics := [⟨some 1, ⟨⟨0, 0⟩, ⟨0, 1⟩⟩, "oops"⟩] }) =
      ({ uri := "file:///workspace/a.ts", diagnostics := [⟨some 1, ⟨⟨0, 0⟩, ⟨0, 1⟩⟩, "oops"⟩] }, true) :=
  ⟨(getDiagnostics_cache_policy
      [("file:///workspace/a.ts", emptyReport "file:///workspace/a.ts")]
      "file:///workspace/a.ts" DiagArrival.timeout).1 _ rfl,
   ((getDiagnostics_cache_policy [] "file:///workspace/a.ts" DiagArrival.timeout).2.1 rfl).2 rfl,
   ((getDiagnostics_cache_policy [] "file:///workspace/a.ts"
      (DiagArrival.arrives
        { uri := "file:///workspace/a.ts",
          diagnostics := [⟨some 1, ⟨⟨0, 0⟩, ⟨0, 1⟩⟩, "oops"⟩] })).2.1 rfl).1 _ rfl⟩

/-- C6: the spec requires the pending timeout timer to be cancelled on every
path of the initialization race that the timeout does not win.  The code
places `clearTimeout` after `await Promise.race(...)`, so a race settled by a
subprocess spawn failure makes the await throw and skips the cancellation,
leaving the timer pending; only the success path cancels it. -/
theorem start_spawnFailure_timer_not_cleared :
    startRaceStep (RaceWinner.spawnFailure "spawn tsgo ENOENT") =
      (Except.error "spawn tsgo ENOENT", false)
  ∧ startRaceStep (RaceWinner.success { capabilities := "caps" }) =
      (Except.ok { capabilities := "caps" }, true) := by
  exact ⟨rfl, rfl⟩

/-- C7: a diagnostics waiter that times out deregisters its handler before
resolving with the empty report, so a notification arriving after the
timeout neither invokes the stale handler nor changes the resolution; a
notification arriving before the timeout cancels the pending timer and
resolves the waiter with that report, having run the handler exactly
once. -/
theorem waiter_timeout_deregisters (uri : String) (params : PublishDiagnosticsParams) :
    (timerFires uri newWaiter).handlerRegistered = false
  ∧ (timerFires uri newWaiter).timerPending = false
  ∧ (timerFires uri newWaiter).resolvedWith = some (emptyReport uri)
  ∧ notificationArrives params (timerFires uri newWaiter) = timerFires uri newWaiter
  ∧ (notificationArrives params (timerFires uri newWaiter)).handlerInvocations = 0
  ∧ (notificationArrives params newWaiter).timerPending = false
  ∧ (notificationArrives params newWaiter).resolvedWith = some params
  ∧ (notificationArrives params newWaiter).handlerInvocations = 1 := by
  refine ⟨rfl, rfl, rfl, ?_, ?_, rfl, rfl, rfl⟩ <;>
    simp [timerFires, notificationArrives, newWaiter, resolveOnce, emptyReport]

/-- C8: shutdown is idempotent and non-throwing: with no connection or no
subprocess it returns at once with no effects; a first effective shutdown
attempts the shutdown request and exit notification best-effort (a delivery
failure adds a logged warning, never an exception), always disposes the
transport and kills the subprocess, and leaves both fields cleared so that a
second shutdown is a no-op. -/
theorem shutdown_idempotent (c : Client) (send send2 : SendOutcome) :
    (¬ (c.connection = true ∧ c.child = true) → shutdown c send = (c, []))
  ∧ (c.connection = true → c.child = true →
      (shutdown c send).1.connection = false
      ∧ (shutdown c send).1.child = false
      ∧ shutdown (shutdown c send).1 send2 = ((shutdown c send).1, [])
      ∧ ShutdownEffect.disposeConnection ∈ (shutdown c send).2
      ∧ ShutdownEffect.killChild ∈ (shutdown c send).2
      ∧ (send = SendOutcome.requestFails →
          ShutdownEffect.sendExitNotification ∉ (shutdown c send).2
          ∧ ShutdownEffect.logShutdownWarning ∈ (shutdown c send).2)) := by
  constructor
  · intro h
    have hb : (!c.connection || !c.child) = true := by
      by_cases hc : c.connection = true
      · by_cases hd : c.child = true
        · exact absurd ⟨hc, hd⟩ h
        · simp [Bool.not_eq_true] at hd
          simp [hd]
      · simp [Bool.not_eq_true] at hc
        simp [hc]
    simp [shutdown, hb]
  · intro hconn hchild
    cases send <;> simp [shutdown, hconn, hchild]

theorem shutdown_idempotent_witness :
    shutdown freshClient SendOutcome.ok = (freshClient, [])
  ∧ (shutdown readyClientWithDoc SendOutcome.requestFails).1.connection = false
  ∧ (shutdown readyClientWithDoc SendOutcome.requestFails).1.child = false
  ∧ shutdown (shutdown readyClientWithDoc SendOutcome.requestFails).1 SendOutcome.ok =
      ((shutdown readyClientWithDoc SendOutcome.requestFails).1, [])
  ∧ ShutdownEffect.killChild ∈ (shutdown readyClientWithDoc SendOutcome.requestFails).2
  ∧ ShutdownEffect.logShutdownWarning ∈ (shutdown readyClientWithDoc SendOutcome.requestFails).2 := by
  have hfresh := (shutdown_idempotent freshClient SendOutcome.ok SendOutcome.ok).1 (by decide)
  have hready := (shutdown_idempotent readyClientWithDoc SendOutcome.requestFails SendOutcome.ok).2
    rfl rfl
  exact ⟨hfresh, hready.1, hready.2.1, hready.2.2.1, hready.2.2.2.2.1, (hready.2.2.2.2.2 rfl).2⟩

theorem initCalls_of_memoized (c : Client) (startOutcome memoized : Except String InitResult)
    (h : c.initPromise = some memoized) (n : Nat) :
    initCalls c startOutcome n = (List.replicate n memoized, c, 0) := by
  induction n with
  | zero => simp [initCalls]
  | succ m ih => simp [initCalls, initOnce, h, ih, List.replicate]

/-- C1: however many callers invoke the memoized initialization on one
client, the subprocess is spawned exactly once (zero times for zero calls),
and every caller observes the same settled outcome of the single `start()`
run, success and failure alike. -/
theorem initOnce_single_spawn (c : Client) (startOutcome : Except String InitResult)
    (h : c.initPromise = none) (n : Nat) :
    (initCalls c startOutcome n).2.2 = (if n = 0 then 0 else 1)
  ∧ ∀ observed ∈ (initCalls c startOutcome n).1, observed = startOutcome := by
  cases n with
  | zero => simp [initCalls]
  | succ m =>
      have hrest := initCalls_of_memoized
        { c with initPromise := some startOutcome, child := true, connection := true }
        startOutcome startOutcome rfl m
      have hall : initCalls c startOutcome (m + 1) =
          (startOutcome :: List.replicate m startOutcome,
           { c with initPromise := some startOutcome, child := true, connection := true },
           1) := by
        simp [initCalls, initOnce, h, hrest]
      refine ⟨by simp [hall], ?_⟩
      intro observed hobs
      rw [hall] at hobs
      rcases List.mem_cons.mp hobs with hfst | hmem
      · exact hfst
      · exact List.eq_of_mem_replicate hmem

theorem initOnce_single_spawn_witness :
    (initCalls freshClient (Except.ok { capabilities := "caps" }) 3).2.2 = 1
  ∧ ∀ observed ∈ (initCalls freshClient (Except.ok { capabilities := "caps" }) 3).1,
      observed = Except.ok { capabilities := "caps" } := by
  have h := initOnce_single_spawn freshClient (Except.ok { capabilities := "caps" }) rfl 3
  exact ⟨by simpa using h.1, h.2⟩

theorem pathRelative_of_within (root cand : List String)
    (h : withinRoot root cand = true) :
    pathRelative root cand = cand.drop root.length := by
  induction root generalizing cand with
  | nil => simp [pathRelative]
  | cons f fs ih =>
      cases cand with
      | nil => simp [withinRoot] at h
      | cons t ts =>
          by_cases hft : f = t
          · subst hft
            simp only [withinRoot, if_pos rfl] at h
            simp [pathRelative, ih ts h]
          · simp [withinRoot, hft] at h

theorem pathRelative_head_of_escape (root cand : List String)
    (h : withinRoot root cand = false) :
    ∃ rest, pathRelative root cand = ".." :: rest := by
  induction root generalizing cand with
  | nil => simp [withinRoot] at h
  | cons f fs ih =>
      cases cand with
      | nil =>
          refine ⟨List.replicate fs.length "..", ?_⟩
          simp [pathRelative, List.replicate]
      | cons t ts =>
          by_cases hft : f = t
          · subst hft
            simp only [withinRoot, if_pos rfl] at h
            simpa [pathRelative] using ih ts h
          · refine ⟨List.replicate fs.length ".." ++ (t :: ts), ?_⟩
            simp [pathRelative, hft, List.replicate]

/-- C9 counterexample: with workspace root `/workspace` and caller-supplied
relative path `..config`, the resolved path `/workspace/..config` lies within
the root, yet `toAbsolutePath` throws — because its guard tests whether the
string `path.relative(root, candidate)` starts with the characters `".."`,
which a legitimate in-root name like `..config` also does.  So the resolver
does not throw exactly when the resolved path escapes the root. -/
theorem toAbsolutePath_rejects_inside_path :
    toAbsolutePath ["workspace"] { absolute := false, segments := ["..config"] } =
      Except.error "Resolved path /workspace/..config escapes workspace root /workspace"
  ∧ withinRoot (resolveSegments ["workspace"])
      (resolveCandidate (resolveSegments ["workspace"])
        { absolute := false, segments := ["..config"] }) = true := by
  exact ⟨by decide, by decide⟩

/-- C9 (amended): the resolver rejects soundly but not exactly.  Whenever the
resolved candidate escapes the workspace root it throws the escape error, and
it does so before any document notification is sent; whenever it returns, it
returns the canonical absolute candidate, which lies within the root; but it
also throws for some in-root paths, namely exactly those whose
`path.relative` string against the root starts with the characters `".."` (or
would be absolute), as `toAbsolutePath_rejects_inside_path` exhibits. -/
theorem toAbsolutePath_amended (workspaceRoot : List String) (inputPath : RawPath) :
    (withinRoot (resolveSegments workspaceRoot)
        (resolveCandidate (resolveSegments workspaceRoot) inputPath) = false →
      toAbsolutePath workspaceRoot inputPath =
        Except.error ("Resolved path "
          ++ joinAbs (resolveCandidate (resolveSegments workspaceRoot) inputPath)
          ++ " escapes workspace root " ++ joinAbs (resolveSegments workspaceRoot)))
  ∧ (∀ components, toAbsolutePath workspaceRoot inputPath = Except.ok components →
      components = resolveCandidate (resolveSegments workspaceRoot) inputPath
      ∧ withinRoot (resolveSegments workspaceRoot) components = true)
  ∧ (withinRoot (resolveSegments workspaceRoot)
        (resolveCandidate (resolveSegments workspaceRoot) inputPath) = false →
      ∀ connection docs diskText,
        ensureDocumentFromInput connection docs workspaceRoot inputPath diskText =
          Except.error ("Resolved path "
            ++ joinAbs (resolveCandidate (resolveSegments workspaceRoot) inputPath)
            ++ " escapes workspace root " ++ joinAbs (resolveSegments workspaceRoot))) := by
  have herr : withinRoot (resolveSegments workspaceRoot)
      (resolveCandidate (resolveSegments workspaceRoot) inputPath) = false →
      toAbsolutePath workspaceRoot inputPath =
        Except.error ("Resolved path "
          ++ joinAbs (resolveCandidate (resolveSegments workspaceRoot) inputPath)
          ++ " escapes workspace root " ++ joinAbs (resolveSegments workspaceRoot)) := by
    intro h
    obtain ⟨rest, hrel⟩ := pathRelative_head_of_escape _ _ h
    have hguard : relStartsWithParent
        (pathRelative (resolveSegments workspaceRoot)
          (resolveCandidate (resolveSegments workspaceRoot) inputPath)) = true := by
      rw [hrel]
      rfl
    simp [toAbsolutePath, hguard]
  refine ⟨herr, ?_, ?_⟩
  · intro components hok
    have hcomp : components = resolveCandidate (resolveSegments workspaceRoot) inputPath := by
      simp only [toAbsolutePath] at hok
      split at hok
      · exact Except.noConfusion hok
      · exact (Except.ok.inj hok).symm
    have hin : withinRoot (resolveSegments workspaceRoot) components = true := by
      rw [hcomp]
      cases hb : withinRoot (resolveSegments workspaceRoot)
          (resolveCandidate (resolveSegments workspaceRoot) inputPath) with
      | true => rfl
      | false =>
          rw [herr hb] at hok
          exact Except.noConfusion hok
    exact ⟨hcomp, hin⟩
  · intro h connection docs diskText
    simp only [ensureDocumentFromInput, herr h]
    rfl

theorem toAbsolutePath_amended_witness :
    toAbsolutePath ["workspace"] { absolute := false, segments := ["..", "etc"] } =
      Except.error "Resolved path /etc escapes workspace root /workspace"
  ∧ (["workspace", "srcdir"] =
        resolveCandidate (resolveSegments ["workspace"])
          { absolute := false, segments := ["srcdir"] }
      ∧ withinRoot (resolveSegments ["workspace"]) ["workspace", "srcdir"] = true)
  ∧ ensureDocumentFromInput true [] ["workspace"]
        { absolute := false, segments := ["..", "etc"] } "text" =
      Except.error "Resolved path /etc escapes workspace root /workspace" := by
  have h1 := (toAbsolutePath_amended ["workspace"]
    { absolute := false, segments := ["..", "etc"] }).1 (by decide)
  have h2 := (toAbsolutePath_amended ["workspace"]
    { absolute := false, segments := ["srcdir"] }).2.1 ["workspace", "srcdir"] (by decide)
  have h3 := (toAbsolutePath_amended ["workspace"]
    { absolute := false, segments := ["..", "etc"] }).2.2 (by decide) true [] "text"
  exact ⟨by simpa using h1, h2, by simpa using h3⟩

/-- C10 counterexample: `shutdownClient` is an initialized client that
completed `shutdown` and still has `/workspace/a.ts` cached at text `"x"`.
A subsequent diagnostics request for that unchanged document resolves with
the empty report after the wait times out — it does not reject with
"LSP connection has not been initialized" — because `getDiagnostics` never
asserts the connection once the document needs no notification.  So not
every analysis operation rejects after shutdown. -/
theorem getDiagnostics_after_shutdown_resolves :
    getDiagnostics shutdownClient (Except.ok { capabilities := "caps" })
        "/workspace/a.ts" "x" DiagArrival.timeout =
      Except.ok ({ uri := toFileUri "/workspace/a.ts", diagnostics := [] }, shutdownClient) := by
  decide

/-- C10 (amended): after a completed shutdown on an initialized client, the
memoized promise still resolves with the original success value without
respawning, and hover, definition, references and document symbols reject
with "LSP connection has not been initialized" before any request is sent;
diagnostics rejects likewise only when the document would need an open or
change notification, and otherwise resolves from the cache or with the
empty report, as `getDiagnostics_after_shutdown_resolves` exhibits. -/
theorem post_shutdown_operations (c : Client) (r : InitResult)
    (startOutcome : Except String InitResult) (st : DocumentState)
    (absolutePath diskText diskText2 : String)
    (hconn : c.connection = false)
    (hinit : c.initPromise = some (Except.ok r))
    (hdoc : mapGet c.openDocuments (toFileUri absolutePath) = some st)
    (htext : st.text = diskText)
    (htext2 : st.text ≠ diskText2) :
    (∀ response, getHover c startOutcome absolutePath diskText response =
        Except.error connectionErrorMessage)
  ∧ (∀ response, getDefinition c startOutcome absolutePath diskText response =
        Except.error connectionErrorMessage)
  ∧ (∀ response, findReferences c startOutcome absolutePath diskText response =
        Except.error connectionErrorMessage)
  ∧ (∀ response, documentSymbols c startOutcome absolutePath diskText response =
        Except.error connectionErrorMessage)
  ∧ (initOnce c startOutcome).1 = Except.ok r
  ∧ (initOnce c startOutcome).2.2 = false
  ∧ (∀ arrival, getDiagnostics c startOutcome absolutePath diskText arrival =
        Except.ok ((awaitDiagnostics c.diagnostics (toFileUri absolutePath) arrival).1, c))
  ∧ (∀ arrival, getDiagnostics c startOutcome absolutePath diskText2 arrival =
        Except.error connectionErrorMessage) := by
  have hinitOnce : initOnce c startOutcome = (Except.ok r, c, false) := by
    simp [initOnce, hinit]
  have hsyncAny : ∀ b : Bool, ensureDocument b c.openDocuments absolutePath diskText =
      Except.ok ([], st, c.openDocuments) := by
    intro b
    simp only [ensureDocument, hdoc]
    rw [if_neg (fun hne => hne htext)]
  have hsync : ensureDocument false c.openDocuments absolutePath diskText =
      Except.ok ([], st, c.openDocuments) := hsyncAny false
  have hsync2 : ensureDocument false c.openDocuments absolutePath diskText2 =
      Except.error connectionErrorMessage := by
    simp only [ensureDocument, hdoc]
    rw [if_pos htext2]
    rfl
  refine ⟨?_, ?_, ?_, ?_, ?_, ?_, ?_, ?_⟩
  · intro response
    simp only [getHover, hinitOnce, hconn, hsync]
    rfl
  · intro response
    simp only [getDefinition, hinitOnce, hconn, hsync]
    rfl
  · intro response
    simp only [findReferences, hinitOnce, hconn, hsync]
    rfl
  · intro response
    simp only [documentSymbols, hinitOnce, hconn, hsync]
    rfl
  · simp [hinitOnce]
  · simp [hinitOnce]
  · intro arrival
    simp only [getDiagnostics, hinitOnce, hsyncAny c.connection]
    rfl
  · intro arrival
    simp only [getDiagnostics, hinitOnce, hconn, hsync2]
    rfl

theorem post_shutdown_operations_witness :
    getHover shutdownClient (Except.ok { capabilities := "caps" }) "/workspace/a.ts" "x" none =
      Except.error connectionErrorMessage
  ∧ getDefinition shutdownClient (Except.ok { capabilities := "caps" }) "/workspace/a.ts" "x"
        DefinitionResponse.null =
      Except.error connectionErrorMessage
  ∧ (initOnce shutdownClient (Except.ok { capabilities := "caps" })).1 =
      Except.ok { capabilities := "caps" }
  ∧ getDiagnostics shutdownClient (Except.ok { capabilities := "caps" }) "/workspace/a.ts" "y"
        DiagArrival.timeout =
      Except.error connectionErrorMessage := by
  have h := post_shutdown_operations shutdownClient { capabilities := "caps" }
    (Except.ok { capabilities := "caps" })
    { uri := toFileUri "/workspace/a.ts", path := "/workspace/a.ts", version := 1, text := "x" }
    "/workspace/a.ts" "x" "y" (by decide) (by decide) (by decide) rfl (by decide)
  exact ⟨h.1 none, h.2.1 DefinitionResponse.null, h.2.2.2.2.1, h.2.2.2.2.2.2.2 DiagArrival.timeout⟩

end TsLspMcp

